/-
Verification of scrapyx resilience-layer claims against a shallow Lean
embedding of the Python sources under packages/scrapyx-mw.

Times, delays and monetary amounts are modelled as rationals (the Python
floats involved in the claims take exactly representable values at the
inputs considered); machine state that Python mutates in place is passed
explicitly, each mutating method returning the updated state.
-/
import Mathlib

namespace Scrapyx

/-! ## SmartRetryMiddleware (middlewares/smart_retry.py) -/

/-- Configuration fields of `SmartRetryMiddleware` relevant to backoff,
mirroring the settings read in `__init__` (defaults: base 1.0, max 60.0,
multiplier 2.0, jitter on, priority on with multiplier 1.5). -/
structure RetryConfig where
  base_backoff : ℚ
  max_backoff : ℚ
  backoff_multiplier : ℚ
  jitter_enabled : Bool
  priority_retry_enabled : Bool
  priority_multiplier : ℚ
deriving DecidableEq

/-- The default configuration with jitter disabled
(`SCRAPYX_RETRY_JITTER_ENABLED = False`, all other settings left at their
defaults). -/
def defaultUnjittered : RetryConfig :=
  { base_backoff := 1
    max_backoff := 60
    backoff_multiplier := 2
    jitter_enabled := false
    priority_retry_enabled := true
    priority_multiplier := 3 / 2 }

/-- Embedding of `SmartRetryMiddleware._calculate_backoff_delay`.  `jitter` is the value
drawn by `random.uniform(-jitter_range, jitter_range)` (only used when
jitter is enabled) and `priority` is `request.meta.get("priority", 0)`;
`retry_count` is the request's current retry count. -/
def calculate_backoff_delay (cfg : RetryConfig) (jitter : ℚ) (priority : ℤ)
    (retry_count : ℕ) : ℚ :=
  let delay := cfg.base_backoff * cfg.backoff_multiplier ^ retry_count
  let delay := min delay cfg.max_backoff
  let delay := if cfg.jitter_enabled then delay * (1 + jitter) else delay
  let delay :=
    if cfg.priority_retry_enabled ∧ 0 < priority then delay / cfg.priority_multiplier
    else delay
  max 0 delay

/-! ## Circuit breaker of SmartRetryMiddleware -/

/-- Per-domain circuit-breaker record, as created in
`_update_circuit_breaker` (`{"state": "closed", "failure_count": 0,
"last_failure": 0}`); `state_open = true` models `state == "open"`. -/
structure Circuit where
  state_open : Bool
  failure_count : ℕ
  last_failure : ℚ
deriving DecidableEq

/-- Fresh circuit record for a domain not seen before. -/
def initCircuit : Circuit := ⟨false, 0, 0⟩

/-- Embedding of `SmartRetryMiddleware._update_circuit_breaker` (body acting on one
domain's record; `now` is `time.time()`). -/
def update_circuit_breaker (threshold : ℕ) (c : Circuit) (now : ℚ)
    (success : Bool) : Circuit :=
  if success then
    { c with state_open := false, failure_count := 0 }
  else
    let fc := c.failure_count + 1
    { state_open := if threshold ≤ fc then true else c.state_open
      failure_count := fc
      last_failure := now }

/-- Embedding of `SmartRetryMiddleware._is_circuit_open` for a domain already present:
returns the reported openness together with the (possibly reset) record. -/
def is_circuit_open (timeout : ℚ) (c : Circuit) (now : ℚ) : Bool × Circuit :=
  if timeout < now - c.last_failure then
    (false, { c with state_open := false, failure_count := 0 })
  else
    (c.state_open, c)

/-- A sequence of recorded failures (one `_update_circuit_breaker` call with
`success = False` per element, the element being the call's `time.time()`). -/
def recordFailures (threshold : ℕ) (times : List ℚ) (c : Circuit) : Circuit :=
  times.foldl (fun c t => update_circuit_breaker threshold c t false) c

lemma recordFailures_spec (threshold : ℕ) (times : List ℚ) (c : Circuit)
    (hinv : c.state_open = true ↔ threshold ≤ c.failure_count) :
    (recordFailures threshold times c).failure_count
        = c.failure_count + times.length
      ∧ ((recordFailures threshold times c).state_open = true
          ↔ threshold ≤ c.failure_count + times.length) := by
  induction times generalizing c with
  | nil => simpa [recordFailures] using hinv
  | cons t ts ih =>
      have hstep :
          (update_circuit_breaker threshold c t false).state_open = true
            ↔ threshold ≤ c.failure_count + 1 := by
        by_cases h : threshold ≤ c.failure_count + 1
        · simp [update_circuit_breaker, h]
        · have h' : ¬ threshold ≤ c.failure_count := fun hc =>
            h (le_trans hc (Nat.le_succ _))
          simp [update_circuit_breaker, h, hinv, h']
      have hcount :
          (update_circuit_breaker threshold c t false).failure_count
            = c.failure_count + 1 := by
        simp [update_circuit_breaker]
      have := ih (update_circuit_breaker threshold c t false)
        (by rw [hcount]; exact hstep)
      rw [hcount] at this
      simpa [recordFailures, List.foldl_cons, Nat.add_assoc, Nat.add_comm 1
        ts.length] using this

/-! ## AsyncCaptchaMiddleware token cache (middlewares/captcha_polling.py) -/

/-- The middleware's `self.cache`: challenge key → `(token, expires)`. -/
def TokenCache : Type := String → Option (String × ℚ)

/-- Assignment `self.cache[k] = v`. -/
def TokenCache.insert (c : TokenCache) (k : String) (v : String × ℚ) :
    TokenCache :=
  fun k' => if k' = k then some v else c k'

/-- Removal `self.cache.pop(k, None)` (the resulting cache). -/
def TokenCache.erase (c : TokenCache) (k : String) : TokenCache :=
  fun k' => if k' = k then none else c k'

/-- The cache-consulting prefix of `AsyncCaptchaMiddleware.process_request`
(lines 107–113): look `k` up at time `now`; a live hit (`hit[1] > now`) is
attached, an expired hit is popped.  Returns the attached token (if any)
together with the cache afterwards. -/
def TokenCache.lookup (c : TokenCache) (k : String) (now : ℚ) :
    Option String × TokenCache :=
  match c k with
  | some (tok, expires) =>
      if now < expires then (some tok, c) else (none, c.erase k)
  | none => (none, c)

/-- Store `self.cache[k] = (sol, time.time() + self.token_ttl_s)` (line 131). -/
def TokenCache.store (c : TokenCache) (k tok : String) (now ttl : ℚ) :
    TokenCache :=
  c.insert k (tok, now + ttl)

/-- C3: a token stored at time `T` with TTL `ttl` is never attached by a
lookup at any time `t ≥ T + ttl`, and such a lookup removes the expired
entry from the cache (lazy eviction); in general any entry found expired at
lookup time is popped at that lookup.  The cache is only ever modified by
`store` and `lookup` (no background sweep exists in the source). -/
theorem token_cache_expiry (c : TokenCache) (k tok : String) (T ttl t : ℚ)
    (h : T + ttl ≤ t) :
    ((c.store k tok T ttl).lookup k t).1 = none
    ∧ ((c.store k tok T ttl).lookup k t).2 = (c.store k tok T ttl).erase k
    ∧ (∀ (c' : TokenCache) (k' tok' : String) (e : ℚ), c' k' = some (tok', e) →
        e ≤ t → c'.lookup k' t = (none, c'.erase k')) := by
  have hgen : ∀ (c' : TokenCache) (k' tok' : String) (e : ℚ),
      c' k' = some (tok', e) → e ≤ t → c'.lookup k' t = (none, c'.erase k') := by
    intro c' k' tok' e hk he
    have : ¬ t < e := not_lt.mpr he
    simp [TokenCache.lookup, hk, this]
  have hk : (c.store k tok T ttl) k = some (tok, T + ttl) := by
    simp [TokenCache.store, TokenCache.insert]
  have := hgen (c.store k tok T ttl) k tok (T + ttl) hk h
  exact ⟨by rw [this], by rw [this], hgen⟩

/-- The empty token cache (`self.cache = {}`). -/
def emptyTokenCache : TokenCache := fun _ => none

/-- Witness for `token_cache_expiry`: a token stored at `T = 0` with the
default TTL 110 is not returned by a lookup at `t = 110`. -/
theorem token_cache_expiry_witness :
    (((emptyTokenCache.store "spider:sk:https://a.test" "tok-1"
        0 110).lookup "spider:sk:https://a.test" 110).1 = none) :=
  (token_cache_expiry emptyTokenCache "spider:sk:https://a.test" "tok-1"
    0 110 110 (by norm_num)).1

/-! ## WebhookCaptchaMiddleware solution store (middlewares/captcha_webhook.py) -/

/-- The `captcha_solutions` table: `captcha_id` → `(solution, used)`. -/
def SolutionDb : Type := String → Option (String × Bool)

/-- Embedding of `WebhookCaptchaMiddleware._get_solution`: select the solution for
`captcha_id` where `used = FALSE`; when a row is found, mark it used and
return the solution, otherwise return none.  The read and the mark happen in
one transition returning both the value and the updated store. -/
def get_solution (db : SolutionDb) (cid : String) : Option String × SolutionDb :=
  match db cid with
  | some (sol, false) =>
      (some sol, fun k => if k = cid then some (sol, true) else db k)
  | _ => (none, db)

/-- C4: for a stored, unconsumed record, the first `_get_solution` call
returns the solution and marks the record consumed, and a second call on the
resulting store returns none and changes nothing — the solution is handed
out exactly once, by a single read-and-mark step. -/
theorem claim_at_most_once (db : SolutionDb) (cid sol : String)
    (h : db cid = some (sol, false)) :
    (get_solution db cid).1 = some sol
    ∧ (get_solution db cid).2 cid = some (sol, true)
    ∧ (get_solution (get_solution db cid).2 cid).1 = none
    ∧ (get_solution (get_solution db cid).2 cid).2 = (get_solution db cid).2 := by
  have h1 : get_solution db cid
      = (some sol, fun k => if k = cid then some (sol, true) else db k) := by
    simp [get_solution, h]
  refine ⟨by rw [h1], by rw [h1]; simp, ?_, ?_⟩
  · rw [h1]; simp [get_solution]
  · rw [h1]; simp [get_solution]

/-- Witness for `claim_at_most_once` on a store holding one unconsumed
record for task "T1". -/
theorem claim_at_most_once_witness :
    ((fun k => if k = "T1" then some ("tok-1", false) else none : SolutionDb)
        "T1" = some ("tok-1", false))
    ∧ (get_solution
        (fun k => if k = "T1" then some ("tok-1", false) else none) "T1").1
        = some "tok-1" :=
  ⟨by simp,
    (claim_at_most_once
      (fun k => if k = "T1" then some ("tok-1", false) else none) "T1" "tok-1"
      (by simp)).1⟩

/-! ## AsyncCaptchaMiddleware solve loop (middlewares/captcha_polling.py) -/

/-- Provider error taxonomy (providers/base.py): `PermanentCaptchaError`
and `TransientCaptchaError`, both subclasses of `CaptchaError`. -/
inductive CaptchaErr where
  | permanent (msg : String)
  | transient (msg : String)
deriving DecidableEq

/-- The poll loop of `AsyncCaptchaMiddleware._solve`: `poll i` is the
outcome of the `i`-th `self.provider.poll(cid)` call (an error, a solution,
or "not ready" = `none`); `fuel` is the number of loop iterations the
wall-clock budget `poll_total` still allows.  Returns the result together
with the number of poll calls issued.  A `PermanentCaptchaError` from `poll`
re-raises; a `TransientCaptchaError` is swallowed and the loop continues;
budget exhaustion raises a transient polling timeout. -/
def solveLoop (poll : ℕ → Except CaptchaErr (Option String)) :
    ℕ → ℕ → Except CaptchaErr String × ℕ
  | 0, calls => (.error (.transient "Captcha polling timeout"), calls)
  | fuel + 1, calls =>
      match poll calls with
      | .error (.permanent m) => (.error (.permanent m), calls + 1)
      | .error (.transient _) => solveLoop poll fuel (calls + 1)
      | .ok (some s) => (.ok s, calls + 1)
      | .ok none => solveLoop poll fuel (calls + 1)

/-- Embedding of `AsyncCaptchaMiddleware._solve`: submit, then poll.  `submitRes` is the
outcome of `self.provider.submit(...)`.  Any `CaptchaError` (permanent
included) is logged and re-raised unchanged by the surrounding
`except CaptchaError` handler; a failed submit never reaches the loop, so
zero poll calls are made. -/
def solve (submitRes : Except CaptchaErr String)
    (poll : String → ℕ → Except CaptchaErr (Option String)) (fuel : ℕ) :
    Except CaptchaErr String × ℕ :=
  match submitRes with
  | .error e => (.error e, 0)
  | .ok cid => solveLoop (poll cid) fuel 0

/-- The tail of `AsyncCaptchaMiddleware.process_request` on the no-cache-hit,
no-inflight path: run `_solve`; on success store the token in the cache
under key `k` (line 131) and attach it; on failure the cache write is
skipped and the exception propagates unchanged. -/
def process_request_solve (cache : TokenCache) (k : String)
    (submitRes : Except CaptchaErr String)
    (poll : String → ℕ → Except CaptchaErr (Option String)) (fuel : ℕ)
    (now ttl : ℚ) : Except CaptchaErr String × TokenCache × ℕ :=
  match solve submitRes poll fuel with
  | (.ok sol, n) => (.ok sol, cache.store k sol now ttl, n)
  | (.error e, n) => (.error e, cache, n)

/-- C5: when `submit` raises a `PermanentCaptchaError`, the coordinator
issues zero poll calls (the poll loop is never entered), writes nothing to
the token cache, and the very same permanent error propagates out of
`process_request` unchanged. -/
theorem permanent_submit_error_propagates (cache : TokenCache) (k m : String)
    (poll : String → ℕ → Except CaptchaErr (Option String)) (fuel : ℕ)
    (now ttl : ℚ) :
    solve (.error (.permanent m)) poll fuel = (.error (.permanent m), 0)
    ∧ process_request_solve cache k (.error (.permanent m)) poll fuel now ttl
        = (.error (.permanent m), cache, 0) := by
  constructor
  · rfl
  · simp [process_request_solve, solve]

/-! ## ProxyRotationMiddleware (middlewares/proxy_rotation.py) -/

/-- The `SCRAPYX_PROXY_ROTATION_STRATEGY` values handled by `_get_next_proxy`
(an unrecognized string falls back to `random.choice`, i.e. behaves as
`random`). -/
inductive RotationStrategy where
  | round_robin
  | rnd_choice
  | weighted
deriving DecidableEq

/-- Mutable state of `ProxyRotationMiddleware` used by `_get_next_proxy`:
the validated pool, the quarantine set `failed_proxies` (a set, modelled as
a duplicate-free list), the session map and flag, and `request_count`. -/
structure ProxyState where
  proxy_list : List String
  failed_proxies : List String
  session_proxies : String → Option String
  session_persistence : Bool
  request_count : ℕ

/-- Embedding of `ProxyRotationMiddleware._get_next_proxy`.  `session_id` is
`request.meta.get('session_id')`; `rnd` abstracts the index drawn by
`random.choice` / `random.choices` for the non-round-robin strategies
(taken modulo the pool size).  Returns the chosen proxy (if any) and the
updated state. -/
def get_next_proxy (strategy : RotationStrategy) (rnd : ℕ) (st : ProxyState)
    (session_id : Option String) : Option String × ProxyState :=
  if st.proxy_list.isEmpty then (none, st)
  else
    let avail0 := st.proxy_list.filter (fun p => !(st.failed_proxies.contains p))
    let availSt :=
      if avail0.isEmpty then (st.proxy_list, { st with failed_proxies := [] })
      else (avail0, st)
    let avail := availSt.1
    let st1 := availSt.2
    if avail.isEmpty then (none, st1)
    else
      let reuse : Option String :=
        if st1.session_persistence then
          match session_id with
          | some sid =>
              match st1.session_proxies sid with
              | some p => if avail.contains p then some p else none
              | none => none
          | none => none
        else none
      match reuse with
      | some p => (some p, st1)
      | none =>
          let proxy :=
            match strategy with
            | .round_robin => avail.getD (st1.request_count % avail.length) ""
            | _ => avail.getD (rnd % avail.length) ""
          let st2 :=
            if st1.session_persistence then
              match session_id with
              | some sid =>
                  { st1 with session_proxies :=
                      fun s => if s = sid then some proxy else st1.session_proxies s }
              | none => st1
            else st1
          (some proxy, { st2 with request_count := st2.request_count + 1 })

/-- State with the given pool, empty quarantine, no session assignments and
selection counter `c`. -/
def mkRRState (pool : List String) (c : ℕ) : ProxyState :=
  { proxy_list := pool
    failed_proxies := []
    session_proxies := fun _ => none
    session_persistence := true
    request_count := c }

/-- Run of `n` consecutive round-robin selections for requests without a session
id, collecting the returned proxies. -/
def runRoundRobin (st : ProxyState) : ℕ → List (Option String) × ProxyState
  | 0 => ([], st)
  | n + 1 =>
      let r := get_next_proxy .round_robin 0 st none
      let rest := runRoundRobin r.2 n
      (r.1 :: rest.1, rest.2)

lemma get_next_proxy_rr_step (pool : List String) (c : ℕ) (hne : pool ≠ []) :
    get_next_proxy .round_robin 0 (mkRRState pool c) none
      = (some (pool.getD (c % pool.length) ""), mkRRState pool (c + 1)) := by
  have hfilter : pool.filter (fun p => !(([] : List String).contains p)) = pool := by
    simp
  have hempty : pool.isEmpty = false := by
    cases pool with
    | nil => exact absurd rfl hne
    | cons a l => rfl
  simp [get_next_proxy, mkRRState, hfilter, hempty]

lemma runRoundRobin_rr (pool : List String) (hne : pool ≠ []) (n c : ℕ) :
    runRoundRobin (mkRRState pool c) n
      = ((List.range n).map
          (fun i => some (pool.getD ((c + i) % pool.length) "")),
        mkRRState pool (c + n)) := by
  induction n generalizing c with
  | zero => simp [runRoundRobin]
  | succ n ih =>
      rw [List.range_succ_eq_map]
      simp only [runRoundRobin, get_next_proxy_rr_step pool c hne,
        ih (c + 1), List.map_cons, List.map_map]
      refine Prod.ext ?_ ?_
      · simp only [Nat.add_zero]
        refine congrArg₂ List.cons rfl ?_
        refine congrArg (fun f => List.map f (List.range n)) ?_
        funext i
        simp [Function.comp, Nat.add_comm, Nat.add_assoc, Nat.add_left_comm]
      · simp [Nat.add_comm, Nat.add_assoc, Nat.add_left_comm]

/-- C6: under the `round_robin` strategy with no quarantined proxies and no
session reuse, every run of `N = pool.length` consecutive selections starting
at counter `c` returns exactly the pool rotated by `c` (each address in pool
order, cyclically), because selection `i` returns `pool[(c + i) % N]` and the
counter advances by one each time; the run is a permutation of the pool, so
in a duplicate-free pool every address is returned exactly once. -/
theorem round_robin_each_address_once (pool : List String) (c : ℕ)
    (hne : pool ≠ []) :
    (runRoundRobin (mkRRState pool c) pool.length).1
        = (List.range pool.length).map
            (fun i => some (pool.getD ((c + i) % pool.length) ""))
    ∧ (runRoundRobin (mkRRState pool c) pool.length).1
        = (pool.rotate c).map some
    ∧ (runRoundRobin (mkRRState pool c) pool.length).2
        = mkRRState pool (c + pool.length)
    ∧ (pool.rotate c).Perm pool
    ∧ ((runRoundRobin (mkRRState pool c) pool.length).1).Perm (pool.map some)
    ∧ (pool.Nodup →
        ((runRoundRobin (mkRRState pool c) pool.length).1).Nodup) := by
  have hrun := runRoundRobin_rr pool hne pool.length c
  have hN : 0 < pool.length := List.length_pos.mpr hne
  have hrot : (List.range pool.length).map
      (fun i => some (pool.getD ((c + i) % pool.length) ""))
      = (pool.rotate c).map some := by
    refine List.ext_get ?_ ?_
    · simp
    · intro i h1 h2
      have hi : i < pool.length := by simpa using h1
      have hmod : (c + i) % pool.length < pool.length := Nat.mod_lt _ hN
      have hgetD : pool.getD ((c + i) % pool.length) ""
          = pool.get ⟨(c + i) % pool.length, hmod⟩ := List.getD_eq_get pool "" hmod
      rw [List.get_map, List.get_map, List.get_rotate, List.get_range]
      rw [hgetD]
      congr 2
      simp [Nat.add_comm]
  have hfst : (runRoundRobin (mkRRState pool c) pool.length).1
      = (pool.rotate c).map some := by rw [hrun]; exact hrot
  refine ⟨by rw [hrun], hfst, by rw [hrun],
    List.rotate_perm pool c, ?_, ?_⟩
  · rw [hfst]
    exact (List.rotate_perm pool c).map some
  · intro hnd
    rw [hfst]
    exact ((List.nodup_rotate).mpr hnd).map (Option.some_injective _)

/-- Witness for `round_robin_each_address_once` on the pool
`["p1", "p2", "p3"]` starting at counter 1. -/
theorem round_robin_each_address_once_witness :
    (["p1", "p2", "p3"] : List String) ≠ []
    ∧ (runRoundRobin (mkRRState ["p1", "p2", "p3"] 1) 3).1
        = ((["p1", "p2", "p3"] : List String).rotate 1).map some :=
  ⟨by decide,
    (round_robin_each_address_once ["p1", "p2", "p3"] 1 (by decide)).2.1⟩

/-! ## ProxyRotationMiddleware statistics and health check -/

/-- One proxy's entry of `self.proxy_stats` (the stored `success_rate` and
`avg_response_time` are recomputed from these fields on every update). -/
structure ProxyStats where
  requests : ℕ
  successes : ℕ
  failures : ℕ
  total_response_time : ℚ
deriving DecidableEq

/-- The zero-initialised stats entry created for a proxy seen for the first
time. -/
def initProxyStats : ProxyStats := ⟨0, 0, 0, 0⟩

/-- Embedding of `ProxyRotationMiddleware._update_proxy_stats`: bump the counters for
`proxy` and add it to the quarantine set once its failure count has reached
`max_failures`.  Returns the updated stats table and quarantine set. -/
def update_proxy_stats (max_failures : ℕ) (stats : String → ProxyStats)
    (failed : List String) (proxy : String) (success : Bool) (rt : ℚ) :
    (String → ProxyStats) × List String :=
  let s0 := stats proxy
  let s : ProxyStats :=
    { requests := s0.requests + 1
      successes := if success then s0.successes + 1 else s0.successes
      failures := if success then s0.failures else s0.failures + 1
      total_response_time := s0.total_response_time + rt }
  let stats' := fun p => if p = proxy then s else stats p
  let failed' :=
    if max_failures ≤ s.failures then
      if failed.contains proxy then failed else failed ++ [proxy]
    else failed
  (stats', failed')

/-- Embedding of `ProxyRotationMiddleware._perform_health_check`: when the quarantine set
is non-empty and holds strictly more than half of the pool
(`len(failed) > len(pool) * 0.5`, i.e. `2 * len(failed) > len(pool)`),
remove `len(failed) // 2` quarantined proxies from the set and reset their
failure counts; otherwise leave everything unchanged. -/
def perform_health_check (pool failed : List String)
    (stats : String → ProxyStats) : List String × (String → ProxyStats) :=
  if failed.isEmpty then (failed, stats)
  else if pool.length < 2 * failed.length then
    let reset := failed.take (failed.length / 2)
    (failed.drop (failed.length / 2),
      fun p => if reset.contains p then { stats p with failures := 0 } else stats p)
  else (failed, stats)

/-- C7 counterexample: with pool `["p1", "p2", "p3"]` and quarantine set
`["p1", "p2"]` (strictly more than half the pool), the health check leaves
the quarantine set non-empty (`["p2"]`), so the quarantine set is NOT
cleared whenever more than half of the pool is quarantined. -/
theorem quarantine_not_cleared_counterexample :
    (["p1", "p2", "p3"] : List String).length < 2 * (["p1", "p2"] : List String).length
    ∧ (perform_health_check ["p1", "p2", "p3"] ["p1", "p2"]
        (fun _ => initProxyStats)).1 = ["p2"]
    ∧ (perform_health_check ["p1", "p2", "p3"] ["p1", "p2"]
        (fun _ => initProxyStats)).1 ≠ [] := by
  refine ⟨by decide, ?_, ?_⟩ <;> simp [perform_health_check]

/-- C7 amended: once a proxy's recorded failure count reaches `max_failures`
it enters the quarantine set; a recorded success never removes a proxy from
the quarantine set; and whenever more than half of the pool is quarantined,
the health check removes half of the quarantined proxies
(`len(failed) // 2` of them) from the set in bulk and resets their failure
counts, keeping the rest quarantined. -/
theorem quarantine_threshold_and_bulk_halving (max_failures : ℕ)
    (stats : String → ProxyStats) (failed : List String) (proxy : String)
    (rt : ℚ) :
    ((update_proxy_stats max_failures stats failed proxy false rt).1 proxy).failures
        = (stats proxy).failures + 1
    ∧ (max_failures ≤ (stats proxy).failures + 1 →
        proxy ∈ (update_proxy_stats max_failures stats failed proxy false rt).2)
    ∧ ((update_proxy_stats max_failures stats failed proxy false rt).2 = failed
        ∨ (update_proxy_stats max_failures stats failed proxy false rt).2
            = failed ++ [proxy])
    ∧ (∀ q ∈ failed, ∀ success : Bool,
        q ∈ (update_proxy_stats max_failures stats failed proxy success rt).2)
    ∧ (∀ pool fl : List String, fl ≠ [] → pool.length < 2 * fl.length →
        (perform_health_check pool fl stats).1 = fl.drop (fl.length / 2)
        ∧ (perform_health_check pool fl stats).1.length
            = fl.length - fl.length / 2
        ∧ ∀ p ∈ fl.take (fl.length / 2),
            ((perform_health_check pool fl stats).2 p).failures = 0) := by
  refine ⟨?_, ?_, ?_, ?_, ?_⟩
  · simp [update_proxy_stats]
  · intro hmax
    by_cases hc : proxy ∈ failed <;> simp [update_proxy_stats, hmax, hc]
  · by_cases hmax : max_failures ≤ (stats proxy).failures + 1
    · by_cases hc : proxy ∈ failed
      · left; simp [update_proxy_stats, hmax, hc]
      · right; simp [update_proxy_stats, hmax, hc]
    · left; simp [update_proxy_stats, hmax]
  · intro q hq success
    by_cases hmax : max_failures ≤ (if success then (stats proxy).failures
        else (stats proxy).failures + 1)
    · by_cases hc : proxy ∈ failed <;> simp [update_proxy_stats, hmax, hc, hq]
    · simp [update_proxy_stats, hmax, hq]
  · intro pool fl hne hhalf
    have hempty : fl.isEmpty = false := by
      cases fl with
      | nil => exact absurd rfl hne
      | cons a l => rfl
    refine ⟨by simp [perform_health_check, hempty, hhalf], ?_, ?_⟩
    · simp [perform_health_check, hempty, hhalf]
    · intro p hp
      simp only [perform_health_check, hempty, Bool.false_eq_true, if_false,
        if_pos hhalf]
      simp [hp]

/-- Witness for `quarantine_threshold_and_bulk_halving` at `max_failures = 3`
for a proxy with 2 recorded failures failing a third time. -/
theorem quarantine_threshold_and_bulk_halving_witness :
    (3 ≤ (2 : ℕ) + 1
      ∧ "p1" ∈ (update_proxy_stats 3 (fun _ => ⟨5, 3, 2, 10⟩) [] "p1" false 1).2) :=
  ⟨by decide,
    (quarantine_threshold_and_bulk_halving 3 (fun _ => ⟨5, 3, 2, 10⟩) [] "p1" 1).2.1
      (by decide)⟩

/-! ## WebhookCaptchaMiddleware request flow -/

/-- The empty `captcha_solutions` table. -/
def emptySolutionDb : SolutionDb := fun _ => none

/-- Embedding of `WebhookCaptchaMiddleware._wait_solution`: poll `_get_solution` once per
second until a solution appears or the timeout elapses; `fuel` is the number
of one-second iterations the `timeout_s` budget allows (300 by default).
Returns the solution (if any), the store afterwards, and how many
`_get_solution` reads of the webhook solution store were performed. -/
def wait_solution (db : SolutionDb) (cid : String) :
    ℕ → Option String × SolutionDb × ℕ
  | 0 => (none, db, 0)
  | fuel + 1 =>
      match get_solution db cid with
      | (some s, db') => (some s, db', 1)
      | (none, db') =>
          let r := wait_solution db' cid fuel
          (r.1, r.2.1, r.2.2 + 1)

/-- Which submission path `WebhookCaptchaMiddleware._submit` takes: the
2captcha branch sends a GET carrying `callbackUrl`; every other provider
(CapSolver) goes through the provider's own `submit` method with no
callback. -/
inductive SubmitRoute where
  | callbackUrl
  | providerSubmit
deriving DecidableEq

/-- The branch condition of `_submit`
(`hasattr(self.provider, "base_url") and "2captcha" in str(type(self.provider))`). -/
def submit_route (providerIsTwoCaptcha : Bool) : SubmitRoute :=
  if providerIsTwoCaptcha then .callbackUrl else .providerSubmit

/-- Embedding of `WebhookCaptchaMiddleware.process_request` after a successful `_submit`
returning task id `cid`: it always proceeds to
`_wait_solution(captcha_id, spider, timeout_s=300)` regardless of the
submission route.  Returns the route taken, the solution obtained, and the
number of webhook-store reads performed. -/
def webhook_process_request (providerIsTwoCaptcha : Bool) (db : SolutionDb)
    (cid : String) (fuel : ℕ) : SubmitRoute × Option String × ℕ :=
  let route := submit_route providerIsTwoCaptcha
  let w := wait_solution db cid fuel
  (route, w.1, w.2.2)

lemma wait_solution_empty (cid : String) (fuel : ℕ) :
    wait_solution emptySolutionDb cid fuel = (none, emptySolutionDb, fuel) := by
  induction fuel with
  | zero => rfl
  | succ n ih => simp [wait_solution, get_solution, emptySolutionDb, ih]

/-- C8 counterexample: for a provider without callback support
(`providerIsTwoCaptcha = false`, the CapSolver branch) whose submit
succeeded with task id "T1" and a webhook store that never receives a
solution, the coordinator reads the webhook solution store 300 times after
the submit — it does NOT degrade to a single synchronous submit with no
local wait. -/
theorem webhook_no_local_wait_counterexample :
    (webhook_process_request false emptySolutionDb "T1" 300).1
        = SubmitRoute.providerSubmit
    ∧ (webhook_process_request false emptySolutionDb "T1" 300).2.2 = 300
    ∧ (webhook_process_request false emptySolutionDb "T1" 300).2.2 ≠ 0 := by
  refine ⟨rfl, ?_, ?_⟩ <;>
    simp [webhook_process_request, wait_solution_empty]

/-- C8 amended: for a provider variant lacking callback support the
coordinator submits once through the provider's own `submit` path (no
callback URL), but it then still waits locally, polling the webhook solution
store at least once whenever the timeout budget is positive. -/
theorem webhook_provider_submit_still_waits (db : SolutionDb) (cid : String)
    (fuel : ℕ) (hf : 1 ≤ fuel) :
    (webhook_process_request false db cid fuel).1 = SubmitRoute.providerSubmit
    ∧ 1 ≤ (webhook_process_request false db cid fuel).2.2 := by
  refine ⟨rfl, ?_⟩
  obtain ⟨n, rfl⟩ : ∃ n, fuel = n + 1 := ⟨fuel - 1, by omega⟩
  simp only [webhook_process_request, wait_solution]
  rcases h : get_solution db cid with ⟨sol, db'⟩
  cases sol <;> simp [h]

/-- Witness for `webhook_provider_submit_still_waits` with one second of
budget against the empty store. -/
theorem webhook_provider_submit_still_waits_witness :
    1 ≤ 1
    ∧ ((webhook_process_request false emptySolutionDb "T1" 1).1
          = SubmitRoute.providerSubmit
        ∧ 1 ≤ (webhook_process_request false emptySolutionDb "T1" 1).2.2) :=
  ⟨le_refl 1, webhook_provider_submit_still_waits emptySolutionDb "T1" 1 (le_refl 1)⟩

/-! ## GuardrailsExtension (extensions/guardrails.py) -/

/-- Embedding of `GuardrailsExtension.record_solve_cost`: add the per-solve cost to the
cumulative spend, then raise `CloseSpider("Budget limit exceeded")` when a
positive daily ceiling is configured and the new cumulative spend meets or
exceeds it; otherwise return the new cumulative spend. -/
def record_solve_cost (max_spend_per_day captcha_cost_per_solve
    total_spend : ℚ) : Except String ℚ :=
  let t := total_spend + captcha_cost_per_solve
  if 0 < max_spend_per_day ∧ max_spend_per_day ≤ t then
    .error "Budget limit exceeded"
  else
    .ok t

/-- C9: with a positive daily ceiling, `record_solve_cost` raises the fatal
budget signal exactly when the cumulative spend after adding the per-solve
cost meets or exceeds the ceiling, and returns the new cumulative spend
normally below that point. -/
theorem budget_exceeded_at_ceiling (max_spend cost total : ℚ)
    (h : 0 < max_spend) :
    (record_solve_cost max_spend cost total = .error "Budget limit exceeded"
        ↔ max_spend ≤ total + cost)
    ∧ (total + cost < max_spend →
        record_solve_cost max_spend cost total = .ok (total + cost)) := by
  by_cases hc : max_spend ≤ total + cost
  · simp [record_solve_cost, h, hc]
  · constructor
    · simp [record_solve_cost, h, hc]
    · intro _
      simp [record_solve_cost, hc]

/-- Witness for `budget_exceeded_at_ceiling`: ceiling 1.0, per-solve cost
0.002, cumulative spend 0.999 → the 500th solve trips the budget. -/
theorem budget_exceeded_at_ceiling_witness :
    (0 : ℚ) < 1
    ∧ (record_solve_cost 1 (2 / 1000) (999 / 1000)
          = .error "Budget limit exceeded"
        ↔ (1 : ℚ) ≤ 999 / 1000 + 2 / 1000) :=
  ⟨by norm_num,
    (budget_exceeded_at_ceiling 1 (2 / 1000) (999 / 1000) (by norm_num)).1⟩

/-- Embedding of `GuardrailsExtension.check_rate_limit` for one consumer: prune both
sliding windows lazily (keep entries strictly younger than one hour /
one day), deny when a configured limit is already met by the pruned window,
otherwise record `now` in both windows and allow.  Returns the decision and
both windows afterwards. -/
def check_rate_limit (max_per_hour max_per_day : ℕ) (hour day : List ℚ)
    (now : ℚ) : Bool × List ℚ × List ℚ :=
  let h := hour.filter (fun t => decide (now - 3600 < t))
  let d := day.filter (fun t => decide (now - 86400 < t))
  if 0 < max_per_hour ∧ max_per_hour ≤ h.length then (false, h, d)
  else if 0 < max_per_day ∧ max_per_day ≤ d.length then (false, h, d)
  else (true, h ++ [now], d ++ [now])

/-- C10: whenever `check_rate_limit` denies (returns false), the current
request's timestamp is appended to neither sliding window: both windows
afterwards are exactly the lazily pruned originals. -/
theorem denied_rate_check_records_nothing (max_per_hour max_per_day : ℕ)
    (hour day : List ℚ) (now : ℚ)
    (h : (check_rate_limit max_per_hour max_per_day hour day now).1 = false) :
    (check_rate_limit max_per_hour max_per_day hour day now).2.1
        = hour.filter (fun t => decide (now - 3600 < t))
    ∧ (check_rate_limit max_per_hour max_per_day hour day now).2.2
        = day.filter (fun t => decide (now - 86400 < t)) := by
  by_cases h1 : 0 < max_per_hour
      ∧ max_per_hour ≤ (hour.filter (fun t => decide (now - 3600 < t))).length
  · simp [check_rate_limit, h1]
  · by_cases h2 : 0 < max_per_day
        ∧ max_per_day ≤ (day.filter (fun t => decide (now - 86400 < t))).length
    · simp [check_rate_limit, h1, h2]
    · exact absurd h (by simp [check_rate_limit, h1, h2])

/-- Witness for `denied_rate_check_records_nothing`: hourly limit 1 with one
fresh entry already in the window → the check denies and appends nothing. -/
theorem denied_rate_check_records_nothing_witness :
    (check_rate_limit 1 0 [0] [] 0).1 = false
    ∧ ((check_rate_limit 1 0 [0] [] 0).2.1
          = ([0] : List ℚ).filter (fun t => decide ((0 : ℚ) - 3600 < t))
        ∧ (check_rate_limit 1 0 [0] [] 0).2.2
          = ([] : List ℚ).filter (fun t => decide ((0 : ℚ) - 86400 < t))) :=
  ⟨by norm_num [check_rate_limit],
    denied_rate_check_records_nothing 1 0 [0] [] 0
      (by norm_num [check_rate_limit])⟩

/-- C1: for every attempt count `n`, the backoff delay computed by
`_calculate_backoff_delay` equals `base * multiplier^n` capped at
`max_backoff` (with jitter disabled and no positive request priority, i.e.
before the optional jitter and priority division), is monotonically
non-decreasing in `n`, and at `base = 1, multiplier = 2, max_backoff = 60`
yields `1, 2, 4, 8, 16, 32` for attempts `0..5` and `60` for attempt `6`. -/
theorem backoff_delay_capped_monotone (cfg : RetryConfig)
    (hb : 0 ≤ cfg.base_backoff) (hm : 1 ≤ cfg.backoff_multiplier)
    (hx : 0 ≤ cfg.max_backoff) (hj : cfg.jitter_enabled = false) :
    (∀ (j : ℚ) (p : ℤ) (n : ℕ), p ≤ 0 →
        calculate_backoff_delay cfg j p n
          = min (cfg.base_backoff * cfg.backoff_multiplier ^ n) cfg.max_backoff)
    ∧ (∀ (j : ℚ) (p : ℤ) (m n : ℕ), p ≤ 0 → m ≤ n →
        calculate_backoff_delay cfg j p m ≤ calculate_backoff_delay cfg j p n)
    ∧ (List.range 7).map (calculate_backoff_delay defaultUnjittered 0 0)
        = [1, 2, 4, 8, 16, 32, 60] := by
  have hm0 : (0 : ℚ) ≤ cfg.backoff_multiplier := le_trans zero_le_one hm
  have hval : ∀ (j : ℚ) (p : ℤ) (n : ℕ), p ≤ 0 →
      calculate_backoff_delay cfg j p n
        = min (cfg.base_backoff * cfg.backoff_multiplier ^ n) cfg.max_backoff := by
    intro j p n hp
    have hp' : ¬ (cfg.priority_retry_enabled ∧ 0 < p) := fun h =>
      absurd hp (not_le.mpr h.2)
    have hnn : (0 : ℚ) ≤ min (cfg.base_backoff * cfg.backoff_multiplier ^ n)
        cfg.max_backoff :=
      le_min (mul_nonneg hb (pow_nonneg hm0 n)) hx
    simp only [calculate_backoff_delay, hj, Bool.false_eq_true, if_false,
      if_neg hp']
    exact max_eq_right hnn
  refine ⟨hval, ?_, ?_⟩
  · intro j p m n hp hmn
    rw [hval j p m hp, hval j p n hp]
    refine min_le_min ?_ le_rfl
    exact mul_le_mul_of_nonneg_left (pow_le_pow_right₀ hm hmn) hb
  · norm_num [calculate_backoff_delay, defaultUnjittered, List.range_succ,
      min_def, max_def]

/-- Witness for `backoff_delay_capped_monotone` at the default configuration
with jitter disabled. -/
theorem backoff_delay_capped_monotone_witness :
    ((0 : ℚ) ≤ defaultUnjittered.base_backoff
        ∧ (1 : ℚ) ≤ defaultUnjittered.backoff_multiplier
        ∧ (0 : ℚ) ≤ defaultUnjittered.max_backoff)
    ∧ (List.range 7).map (calculate_backoff_delay defaultUnjittered 0 0)
        = [1, 2, 4, 8, 16, 32, 60] :=
  ⟨by norm_num [defaultUnjittered],
    (backoff_delay_capped_monotone defaultUnjittered (by norm_num [defaultUnjittered])
      (by norm_num [defaultUnjittered]) (by norm_num [defaultUnjittered]) rfl).2.2⟩

/-- C2: starting from a fresh record, a run of recorded failures leaves the
failure count equal to the number of failures and the circuit is open exactly
when that count has reached the threshold; a recorded success resets the
count to zero and closes the circuit; and an open circuit is reported closed
by `_is_circuit_open` exactly when strictly more than `timeout` seconds have
elapsed since the last recorded failure. -/
theorem circuit_breaker_spec (threshold : ℕ) (ht : 1 ≤ threshold) :
    (∀ times : List ℚ,
        (recordFailures threshold times initCircuit).failure_count
            = times.length
        ∧ ((recordFailures threshold times initCircuit).state_open = true
            ↔ threshold ≤ times.length))
    ∧ (∀ (c : Circuit) (now : ℚ),
        update_circuit_breaker threshold c now true
          = { state_open := false, failure_count := 0
              last_failure := c.last_failure })
    ∧ (∀ (timeout : ℚ) (c : Circuit) (now : ℚ), c.state_open = true →
        ((is_circuit_open timeout c now).1 = false
          ↔ timeout < now - c.last_failure)) := by
  refine ⟨?_, ?_, ?_⟩
  · intro times
    have h := recordFailures_spec threshold times initCircuit
      (by simp [initCircuit]; omega)
    simpa [initCircuit] using h
  · intro c now
    simp [update_circuit_breaker]
  · intro timeout c now hc
    by_cases h : timeout < now - c.last_failure
    · simp [is_circuit_open, h]
    · simp [is_circuit_open, h, hc]

/-- Witness for `circuit_breaker_spec` at threshold 5: after 4 recorded
failures the circuit is still closed and after the 5th it is open. -/
theorem circuit_breaker_spec_witness :
    (1 ≤ 5
      ∧ ((recordFailures 5 [0, 1, 2, 3] initCircuit).state_open = true
          ↔ 5 ≤ 4)
      ∧ ((recordFailures 5 [0, 1, 2, 3, 4] initCircuit).state_open = true
          ↔ 5 ≤ 5)) :=
  ⟨by decide,
    by simpa using ((circuit_breaker_spec 5 (by decide)).1 [0, 1, 2, 3]).2,
    by simpa using ((circuit_breaker_spec 5 (by decide)).1 [0, 1, 2, 3, 4]).2⟩

end Scrapyx
